import Mathlib

/-!
Verification of the LinkLess conversation-processing pipeline.

This file embeds the core of the backend pipeline — the transcription and
summarization background tasks, the two provider services they call, and the
conversation/transcript/summary data model — as executable Lean definitions,
and proves or refutes the specified properties of the pipeline.

The embedding follows these source files:
  backend/app/tasks/transcription.py        (transcribe_conversation)
  backend/app/tasks/summarization.py        (summarize_conversation)
  backend/app/services/transcription_service.py (TranscriptionService)
  backend/app/services/summarization_service.py (SummarizationService)
  backend/app/models/conversation.py        (Conversation, Transcript, Summary)

External effects (HTTP download, ffprobe, ffmpeg, the Whisper and Grok API
calls, the ARQ job runtime) are modelled as explicit environments of outcomes;
the database is modelled as one record per conversation, with the at-most-one
Transcript/Summary uniqueness constraints of the schema baked into the types
as Option fields.
-/

/-! ## Python string primitives used by the code -/

/-- Python `s[:n]` slicing on a string (used for `str(exc)[:500]`). -/
def pyTake (n : Nat) (s : String) : String := ⟨s.data.take n⟩

/-- Python `str.strip()` with no argument: drop leading and trailing
whitespace. -/
def pyStrip (s : String) : String :=
  ⟨((s.data.dropWhile Char.isWhitespace).reverse.dropWhile Char.isWhitespace).reverse⟩

/-- Accumulator loop for `pySplitWs`: the first argument is the remaining
input, the second the current word reversed. -/
def splitWsAux : List Char → List Char → List (List Char)
  | [], acc => if acc.isEmpty then [] else [acc.reverse]
  | c :: cs, acc =>
    if c.isWhitespace then
      if acc.isEmpty then splitWsAux cs []
      else acc.reverse :: splitWsAux cs []
    else splitWsAux cs (c :: acc)

/-- Python `str.split()` with no argument: split on whitespace runs,
dropping empty pieces. -/
def pySplitWs (s : String) : List String :=
  (splitWsAux s.data []).map (fun w => ⟨w⟩)

/-- The left-brace character, written via its code point. -/
def lbraceChar : Char := Char.ofNat 123

/-- The right-brace character, written via its code point. -/
def rbraceChar : Char := Char.ofNat 125

/-! ## JSON values and a parser mirroring Python `json.loads`

Numbers are kept as their raw source literal; the code under verification
never does arithmetic on parsed numbers, only `isinstance` checks,
`int(...)` coercions and `str(...)` rendering, which the literal supports.
The non-finite constants `NaN`, `Infinity` and `-Infinity`, which Python
accepts by default, are stored as `Json.num "nan"`, `"inf"` and `"-inf"`
— the `str(...)` forms of the floats they decode to. -/

deriving instance DecidableEq for Except

inductive Json where
  | null
  | bool (b : Bool)
  | num (raw : String)
  | str (s : String)
  | arr (xs : List Json)
  | obj (kvs : List (String × Json))
deriving Repr, Inhabited

/-- JSON whitespace characters. -/
def isJsonWs (c : Char) : Bool :=
  c = ' ' || c = Char.ofNat 9 || c = Char.ofNat 10 || c = Char.ofNat 13

/-- Drop leading JSON whitespace. -/
def skipWs : List Char → List Char
  | [] => []
  | c :: cs => if isJsonWs c then skipWs cs else c :: cs

/-- Value of a hexadecimal digit. -/
def hexVal (c : Char) : Option Nat :=
  if c.isDigit then some (c.toNat - 48)
  else if 97 ≤ c.toNat ∧ c.toNat ≤ 102 then some (c.toNat - 87)
  else if 65 ≤ c.toNat ∧ c.toNat ≤ 70 then some (c.toNat - 55)
  else none

/-- Parse the body of a JSON string literal (the opening quote already
consumed); returns the decoded characters and the rest of the input.
Rejects unescaped control characters and invalid escapes, as Python does. -/
def parseStrBody : List Char → Option (List Char × List Char)
  | [] => none
  | '"' :: rest => some ([], rest)
  | '\\' :: rest =>
    match rest with
    | [] => none
    | 'u' :: h1 :: h2 :: h3 :: h4 :: rest2 =>
      match hexVal h1, hexVal h2, hexVal h3, hexVal h4 with
      | some a, some b, some c, some d =>
        (parseStrBody rest2).map
          (fun p => (Char.ofNat (((a * 16 + b) * 16 + c) * 16 + d) :: p.1, p.2))
      | _, _, _, _ => none
    | e :: rest2 =>
      let dec : Option Char :=
        if e = '"' then some '"'
        else if e = '\\' then some '\\'
        else if e = '/' then some '/'
        else if e = 'b' then some (Char.ofNat 8)
        else if e = 'f' then some (Char.ofNat 12)
        else if e = 'n' then some (Char.ofNat 10)
        else if e = 'r' then some (Char.ofNat 13)
        else if e = 't' then some (Char.ofNat 9)
        else none
      match dec with
      | some d => (parseStrBody rest2).map (fun p => (d :: p.1, p.2))
      | none => none
  | c :: rest =>
    if c.toNat < 32 then none
    else (parseStrBody rest).map (fun p => (c :: p.1, p.2))

/-- Split off a maximal run of decimal digits. -/
def takeDigits (cs : List Char) : List Char × List Char :=
  match cs with
  | [] => ([], [])
  | c :: rest =>
    if c.isDigit then
      let p := takeDigits rest
      (c :: p.1, p.2)
    else ([], cs)

/-- Parse a JSON number literal, returning the raw literal text and the
rest of the input. Enforces the JSON grammar (no leading zeros, a digit
required after the decimal point and the exponent marker). -/
def parseNum (cs : List Char) : Option (String × List Char) :=
  let (signPart, cs1) :=
    match cs with
    | '-' :: rest => ([ '-' ], rest)
    | _ => ([], cs)
  let (intPart, cs2) := takeDigits cs1
  if intPart = [] then none
  else if intPart.length > 1 ∧ intPart.headD '0' = '0' then none
  else
    let (fracPart, cs3) :=
      match cs2 with
      | '.' :: rest =>
        let p := takeDigits rest
        if p.1 = [] then ([], cs2) else ('.' :: p.1, p.2)
      | _ => ([], cs2)
    if cs2 ≠ cs3 ∨ fracPart ≠ [] then
      parseNumExp (signPart ++ intPart ++ fracPart) cs3
    else
      match cs2 with
      | '.' :: _ => none
      | _ => parseNumExp (signPart ++ intPart) cs2
where
  /-- Parse the optional exponent suffix of a JSON number. -/
  parseNumExp (mantissa : List Char) (cs : List Char) : Option (String × List Char) :=
    match cs with
    | 'e' :: rest => parseNumExpTail mantissa 'e' rest
    | 'E' :: rest => parseNumExpTail mantissa 'E' rest
    | _ => some (⟨mantissa⟩, cs)
  /-- Parse the sign and digits after an exponent marker. -/
  parseNumExpTail (mantissa : List Char) (marker : Char) (cs : List Char) :
      Option (String × List Char) :=
    let (sgn, cs1) :=
      match cs with
      | '+' :: rest => ([ '+' ], rest)
      | '-' :: rest => ([ '-' ], rest)
      | _ => ([], cs)
    let (digits, cs2) := takeDigits cs1
    if digits = [] then none
    else some (⟨mantissa ++ marker :: sgn ++ digits⟩, cs2)

mutual

/-- Parse one JSON value; fuel bounds the recursion depth. -/
def parseVal : Nat → List Char → Option (Json × List Char)
  | 0, _ => none
  | Nat.succ fuel, cs =>
    match skipWs cs with
    | [] => none
    | c :: rest =>
      if c = '"' then
        (parseStrBody rest).map (fun p => (Json.str ⟨p.1⟩, p.2))
      else if c = '[' then
        match skipWs rest with
        | ']' :: rest2 => some (Json.arr [], rest2)
        | cs2 => (parseArrRest fuel cs2).map (fun p => (Json.arr p.1, p.2))
      else if c = lbraceChar then
        match skipWs rest with
        | d :: rest2 =>
          if d = rbraceChar then some (Json.obj [], rest2)
          else (parseObjRest fuel (d :: rest2)).map (fun p => (Json.obj p.1, p.2))
        | [] => none
      else if c = 't' then
        match rest with
        | 'r' :: 'u' :: 'e' :: rest2 => some (Json.bool true, rest2)
        | _ => none
      else if c = 'f' then
        match rest with
        | 'a' :: 'l' :: 's' :: 'e' :: rest2 => some (Json.bool false, rest2)
        | _ => none
      else if c = 'n' then
        match rest with
        | 'u' :: 'l' :: 'l' :: rest2 => some (Json.null, rest2)
        | _ => none
      else if c = 'N' then
        match rest with
        | 'a' :: 'N' :: rest2 => some (Json.num "nan", rest2)
        | _ => none
      else if c = 'I' then
        match rest with
        | 'n' :: 'f' :: 'i' :: 'n' :: 'i' :: 't' :: 'y' :: rest2 =>
          some (Json.num "inf", rest2)
        | _ => none
      else if c = '-' then
        match rest with
        | 'I' :: 'n' :: 'f' :: 'i' :: 'n' :: 'i' :: 't' :: 'y' :: rest2 =>
          some (Json.num "-inf", rest2)
        | _ => (parseNum (c :: rest)).map (fun p => (Json.num p.1, p.2))
      else
        (parseNum (c :: rest)).map (fun p => (Json.num p.1, p.2))

/-- Parse the elements of a JSON array, a value being expected next. -/
def parseArrRest : Nat → List Char → Option (List Json × List Char)
  | 0, _ => none
  | Nat.succ fuel, cs =>
    match parseVal fuel cs with
    | none => none
    | some (v, cs1) =>
      match skipWs cs1 with
      | ',' :: rest =>
        (parseArrRest fuel rest).map (fun p => (v :: p.1, p.2))
      | ']' :: rest => some ([v], rest)
      | _ => none

/-- Parse the members of a JSON object, a key being expected next. -/
def parseObjRest : Nat → List Char → Option (List (String × Json) × List Char)
  | 0, _ => none
  | Nat.succ fuel, cs =>
    match skipWs cs with
    | '"' :: rest =>
      match parseStrBody rest with
      | none => none
      | some (key, cs1) =>
        match skipWs cs1 with
        | ':' :: cs2 =>
          match parseVal fuel cs2 with
          | none => none
          | some (v, cs3) =>
            match skipWs cs3 with
            | ',' :: rest2 =>
              (parseObjRest fuel rest2).map (fun p => ((⟨key⟩, v) :: p.1, p.2))
            | d :: rest2 =>
              if d = rbraceChar then some ([(⟨key⟩, v)], rest2) else none
            | [] => none
        | _ => none
    | _ => none

end

/-- Python `json.loads`: parse a complete JSON document, requiring only
whitespace after the value. Returns none where Python raises
`json.JSONDecodeError`. -/
def jsonParse (s : String) : Option Json :=
  match parseVal (2 * s.data.length + 2) s.data with
  | some (j, rest) => if skipWs rest = [] then some j else none
  | none => none

/-- Last-binding lookup of an object key, matching Python dict semantics
where a duplicated key in the JSON source keeps the last value. -/
def Json.getField : Json → String → Option Json
  | Json.obj kvs, k => ((kvs.filter (fun kv => kv.1 = k)).getLast?).map (fun kv => kv.2)
  | _, _ => none

/-- Natural number denoted by a list of decimal digit characters. -/
def digitsToNat (ds : List Char) : Nat :=
  ds.foldl (fun a c => a * 10 + (c.toNat - 48)) 0

/-- Python `int(s)` on a string: optional surrounding whitespace, optional
sign, at least one digit; none where Python raises `ValueError`. -/
def pyIntOfString (s : String) : Option Int :=
  match (pyStrip s).data with
  | '-' :: ds =>
    if ds ≠ [] ∧ ds.all Char.isDigit then some (-(digitsToNat ds : Int)) else none
  | '+' :: ds =>
    if ds ≠ [] ∧ ds.all Char.isDigit then some (digitsToNat ds : Int) else none
  | ds =>
    if ds ≠ [] ∧ ds.all Char.isDigit then some (digitsToNat ds : Int) else none

/-- Decompose a finite JSON number literal into sign, integer digits,
fractional digits, and exponent. -/
def splitNumRaw (raw : String) : Bool × List Char × List Char × Int :=
  let (neg, cs) :=
    match raw.data with
    | '-' :: rest => (true, rest)
    | cs => (false, cs)
  let (intDigits, cs1) := takeDigits cs
  let (fracDigits, cs2) :=
    match cs1 with
    | '.' :: rest => takeDigits rest
    | _ => ([], cs1)
  let expo : Int :=
    match cs2 with
    | _ :: rest =>
      match rest with
      | '-' :: ds => -(digitsToNat (takeDigits ds).1 : Int)
      | '+' :: ds => (digitsToNat (takeDigits ds).1 : Int)
      | ds => (digitsToNat (takeDigits ds).1 : Int)
    | [] => 0
  (neg, intDigits, fracDigits, expo)

/-- Python `int(x)` on a finite number decoded from JSON: an int is kept,
a float is truncated toward zero. -/
def pyIntOfNumRaw (raw : String) : Int :=
  let (neg, intDigits, fracDigits, expo) := splitNumRaw raw
  let mantissa : Nat := digitsToNat (intDigits ++ fracDigits)
  let shift : Int := expo - fracDigits.length
  let magnitude : Nat :=
    if 0 ≤ shift then mantissa * 10 ^ shift.toNat
    else mantissa / 10 ^ (-shift).toNat
  if neg then -(magnitude : Int) else (magnitude : Int)

/-- Whether a decoded number is a Python `int` (`isinstance(x, int)`): its
literal is sign and digits only — a fractional part, an exponent, or one
of the non-finite constants makes it a float. -/
def numRawIsInt (raw : String) : Bool :=
  raw.data.all (fun c => c.isDigit ∨ c = '-')

/-- Whether a decoded number equals zero: its mantissa has digits and they
are all 0. The non-finite constants have no digits and are not zero. -/
def numRawIsZero (raw : String) : Bool :=
  let mantissa := raw.data.takeWhile (fun c => c ≠ 'e' ∧ c ≠ 'E')
  mantissa.any Char.isDigit && mantissa.all (fun c => ¬ c.isDigit ∨ c = '0')

/-- Python truthiness of a value decoded from JSON (`if t` filters);
non-finite floats are truthy. -/
def Json.truthy : Json → Bool
  | Json.null => false
  | Json.bool b => b
  | Json.num raw => ¬ numRawIsZero raw
  | Json.str s => s ≠ ""
  | Json.arr xs => ¬ xs.isEmpty
  | Json.obj kvs => ¬ kvs.isEmpty

/-- Decimal digit character. -/
def digitChar (n : Nat) : Char := Char.ofNat (48 + n)

/-- Decimal digits of a natural number, most significant first; the fuel
makes the recursion structural so it evaluates in the kernel. -/
def natDigitsAux : Nat → Nat → List Char
  | 0, _ => []
  | Nat.succ fuel, n =>
    if n < 10 then [digitChar n]
    else natDigitsAux fuel (n / 10) ++ [digitChar (n % 10)]

/-- Decimal string of a natural number. -/
def natToDecimalString (n : Nat) : String := ⟨natDigitsAux (n + 1) n⟩

/-- Python `str(...)` of an integer. -/
def intToDecimalString (i : Int) : String :=
  if i < 0 then "-" ++ natToDecimalString i.natAbs else natToDecimalString i.natAbs

/-- Python `str(...)` of a finite float decoded from JSON: the decimal
value of the literal rendered with float formatting — trailing zeros
dropped, fixed notation while the decimal exponent lies in [-4, 15],
otherwise scientific notation with a signed, at least two-digit exponent.
(Python would additionally round a literal carrying more significant
digits than a double holds; no such literal occurs here.) -/
def pyFloatStr (raw : String) : String :=
  let p := splitNumRaw raw
  let digits := p.2.1 ++ p.2.2.1
  let pointPos : Int := (p.2.1.length : Int) + p.2.2.2
  let lead := (digits.takeWhile (fun c => c = '0')).length
  let sig := ((digits.drop lead).reverse.dropWhile (fun c => c = '0')).reverse
  let sign := if p.1 then "-" else ""
  if sig.isEmpty then sign ++ "0.0"
  else
    let x : Int := pointPos - lead - 1
    if -5 < x ∧ x < 16 then
      if 0 ≤ x then
        let n := x.toNat + 1
        let intPart : List Char := sig.take n ++ List.replicate (n - sig.length) '0'
        let fracPart : List Char := sig.drop n
        sign ++ (⟨intPart⟩ : String) ++ "." ++
          (if fracPart.isEmpty then "0" else (⟨fracPart⟩ : String))
      else
        sign ++ "0." ++ (⟨List.replicate (-x - 1).toNat '0'⟩ : String) ++ (⟨sig⟩ : String)
    else
      let mant := (⟨[sig.headD '0']⟩ : String) ++
        (if sig.tail.isEmpty then "" else "." ++ (⟨sig.tail⟩ : String))
      let expDigits := natDigitsAux (x.natAbs + 1) x.natAbs
      let expStr : String := ⟨List.replicate (2 - expDigits.length) '0' ++ expDigits⟩
      sign ++ mant ++ "e" ++ (if 0 ≤ x then "+" else "-") ++ expStr

/-- Hexadecimal digit character, lowercase. -/
def hexDigitChar (n : Nat) : Char :=
  if n < 10 then Char.ofNat (48 + n) else Char.ofNat (87 + n)

/-- Python `repr` escape of one character under the chosen quote. -/
def pyReprEscapeChar (q c : Char) : String :=
  if c = '\\' then "\\\\"
  else if c = q then "\\" ++ String.singleton q
  else if c = Char.ofNat 10 then "\\n"
  else if c = Char.ofNat 13 then "\\r"
  else if c = Char.ofNat 9 then "\\t"
  else if c.toNat < 32 ∨ c.toNat = 127 then
    "\\x" ++ String.singleton (hexDigitChar (c.toNat / 16)) ++
      String.singleton (hexDigitChar (c.toNat % 16))
  else String.singleton c

/-- Python `repr` of a string: single-quoted, switching to double quotes
when the string contains a single quote but no double quote. -/
def pyReprStr (s : String) : String :=
  let q := if s.data.contains (Char.ofNat 39) ∧ ¬ s.data.contains '"' then '"'
    else Char.ofNat 39
  String.singleton q ++ String.join (s.data.map (pyReprEscapeChar q)) ++
    String.singleton q

mutual

/-- Python `repr` of a value decoded from JSON (used by `str(...)` on
non-string values). -/
def pyRepr : Json → String
  | Json.null => "None"
  | Json.bool true => "True"
  | Json.bool false => "False"
  | Json.num raw =>
    if raw = "nan" ∨ raw = "inf" ∨ raw = "-inf" then raw
    else if numRawIsInt raw then intToDecimalString (pyIntOfNumRaw raw)
    else pyFloatStr raw
  | Json.str s => pyReprStr s
  | Json.arr xs => "[" ++ pyReprArr xs ++ "]"
  | Json.obj kvs =>
    String.singleton lbraceChar ++ pyReprObj kvs ++ String.singleton rbraceChar

/-- Comma-separated reprs of array elements. -/
def pyReprArr : List Json → String
  | [] => ""
  | [x] => pyRepr x
  | x :: xs => pyRepr x ++ ", " ++ pyReprArr xs

/-- Comma-separated reprs of object members. -/
def pyReprObj : List (String × Json) → String
  | [] => ""
  | [kv] => pyReprStr kv.1 ++ ": " ++ pyRepr kv.2
  | kv :: kvs => pyReprStr kv.1 ++ ": " ++ pyRepr kv.2 ++ ", " ++ pyReprObj kvs

end

/-- Python `str(...)` applied to a value decoded from JSON. -/
def pyStr (j : Json) : String :=
  match j with
  | Json.str s => s
  | _ => pyRepr j

/-- JSON string escaping as performed by `json.dumps` on the topic list. -/
def jsonEscapeChar (c : Char) : String :=
  if c = '"' then "\\\""
  else if c = '\\' then "\\\\"
  else if c = Char.ofNat 10 then "\\n"
  else if c = Char.ofNat 9 then "\\t"
  else if c = Char.ofNat 13 then "\\r"
  else String.singleton c

/-- Quote a string as a JSON string literal. -/
def jsonQuote (s : String) : String :=
  "\"" ++ String.join (s.data.map jsonEscapeChar) ++ "\""

/-- Python `json.dumps` on a list of strings (default separators). -/
def jsonDumpsStrList (xs : List String) : String :=
  "[" ++ String.intercalate ", " (xs.map jsonQuote) ++ "]"

/-! ## Data model (backend/app/models/conversation.py)

One conversation is considered at a time. The `unique=True` constraint on
`Transcript.conversation_id` and `Summary.conversation_id` makes each
artifact at most one per conversation, so the database state restricted to
one conversation is an optional Conversation row plus optional artifact
rows. The `error_detail` column added by migration 007 is carried on the
conversation. -/

structure Conversation where
  status : String
  errorDetail : Option String
  audioStorageKey : String
deriving Repr, DecidableEq

structure Transcript where
  content : String
  provider : String
  language : String
  wordCount : Nat
deriving Repr, DecidableEq

structure Summary where
  content : String
  keyTopics : String
  provider : String
deriving Repr, DecidableEq

/-- Database state for one conversation identifier. -/
structure Db where
  conv : Option Conversation
  transcript : Option Transcript
  summary : Option Summary
deriving Repr, DecidableEq

/-! ## TranscriptionService (backend/app/services/transcription_service.py) -/

/-- Result of a transcription operation; `utterances` is always empty in
plain-text mode, as the source dataclass documents. -/
structure TranscriptionResult where
  utterances : List Json
  fullText : String
  provider : String
  language : String
  wordCount : Nat
deriving Repr

/-- Maximum file size for the OpenAI transcription API (25 MB). -/
def openaiMaxBytes : Nat := 25 * 1024 * 1024

/-- Outcomes of the external effects performed by
`TranscriptionService.transcribe`: the audio download, the ffprobe duration
probe (whole seconds), the ffmpeg conversion, and the Whisper call. -/
structure TransServiceEnv where
  downloadResult : Except String (List Nat)
  durationResult : List Nat → Except String Nat
  convertResult : List Nat → Except String (List Nat)
  whisperResult : List Nat → Except String String

/-- Check for the M4A/MP4 `ftyp` magic bytes at offset 4-8. -/
def isM4a (bytes : List Nat) : Bool :=
  decide (12 ≤ bytes.length) && decide ((bytes.drop 4).take 4 = [102, 116, 121, 112])

/-- The `_ensure_m4a` helper: return the bytes unchanged when they carry
the `ftyp` signature, otherwise convert via ffmpeg (which may fail). -/
def ensureM4a (env : TransServiceEnv) (bytes : List Nat) : Except String (List Nat) :=
  if isM4a bytes then Except.ok bytes else env.convertResult bytes

/-- `TranscriptionService.transcribe`: download the audio, validate size
and duration, ensure M4A format, call Whisper. The second component counts
transcription-provider (Whisper) invocations. -/
def TranscriptionService.transcribe (env : TransServiceEnv) :
    Except String TranscriptionResult × Nat :=
  match env.downloadResult with
  | Except.error e => (Except.error e, 0)
  | Except.ok audioBytes =>
    if audioBytes.length = 0 then
      (Except.error "Audio file is empty (0 bytes)", 0)
    else if openaiMaxBytes < audioBytes.length then
      (Except.error "Audio exceeds OpenAI 25MB limit", 0)
    else
      match env.durationResult audioBytes with
      | Except.error e => (Except.error e, 0)
      | Except.ok duration =>
        if duration < 1 then (Except.error "Audio too short (minimum 1s)", 0)
        else if 300 < duration then (Except.error "Audio exceeds 5-minute limit", 0)
        else
          match ensureM4a env audioBytes with
          | Except.error e => (Except.error e, 0)
          | Except.ok m4aBytes =>
            match env.whisperResult m4aBytes with
            | Except.error e => (Except.error e, 1)
            | Except.ok text =>
              let fullText := pyStrip text
              (Except.ok
                { utterances := []
                  fullText := fullText
                  provider := "whisper"
                  language := "en"
                  wordCount := (pySplitWs fullText).length }, 1)

/-! ## SummarizationService (backend/app/services/summarization_service.py) -/

structure SummaryResult where
  summary : String
  keyTopics : List String
  speakerCount : Int
  provider : String
deriving Repr, DecidableEq

/-- Minimum word count for a meaningful transcript. -/
def minWordCount : Nat := 10

/-- Outcome of the Grok chat-completion call: an exception, or a response
whose message content is optional text (`None` becomes the empty object). -/
structure SummServiceEnv where
  chatResult : Except String (Option String)

/-- The `summary` field extraction: `parsed.get("summary", "")` followed by
a `str(...)` coercion for non-string values. -/
def summaryTextOfField (o : Option Json) : String :=
  match o with
  | none => ""
  | some j => pyStr j

/-- The `key_topics` extraction: `parsed.get("key_topics", [])`, replaced
by `[]` when not a list, then `[str(t) for t in key_topics if t]`. -/
def keyTopicsOfField (o : Option Json) : List String :=
  match o with
  | some (Json.arr xs) => (xs.filter Json.truthy).map pyStr
  | _ => []

/-- The `speaker_count` extraction: `parsed.get("speaker_count", 0)` is
kept when an int (a JSON bool is a Python int, so `True`/`False` stay as
1/0), otherwise coerced with `int(...)` inside
`except (ValueError, TypeError)`: a finite float truncates toward zero, a
NaN raises ValueError (caught, 0), a string parses or raises ValueError
(caught, 0), null/list/dict raise TypeError (caught, 0) — but an infinite
float raises OverflowError, which the handler does not catch, so it
propagates out of the service. -/
def speakerCountOfField (o : Option Json) : Except String Int :=
  match o with
  | none => Except.ok 0
  | some (Json.num raw) =>
    if raw = "nan" then Except.ok 0
    else if raw = "inf" ∨ raw = "-inf" then
      Except.error "OverflowError: cannot convert float infinity to integer"
    else Except.ok (pyIntOfNumRaw raw)
  | some (Json.bool b) => Except.ok (if b then 1 else 0)
  | some (Json.str s) => Except.ok ((pyIntOfString s).getD 0)
  | some _ => Except.ok 0

/-- The `response.choices[0].message.content or "\x7b\x7d"` step: a missing
or empty message content falls back to the empty JSON object literal. -/
def rawContentOf (contentOpt : Option String) : String :=
  match contentOpt with
  | none => "\x7b\x7d"
  | some s => if s = "" then "\x7b\x7d" else s

/-- `SummarizationService.summarize`: short transcripts short-circuit to a
default result with no provider call; otherwise call Grok, treat a
JSON-undecodable body as a terminal content problem resolved with a
placeholder, and extract the structured fields from a decoded object. A
decoded non-object raises (`.get` on it is an AttributeError), which the
service does not catch. The second component counts Grok invocations. -/
def SummarizationService.summarize (env : SummServiceEnv) (transcriptText : String) :
    Except String SummaryResult × Nat :=
  if transcriptText = "" ∨ (pySplitWs transcriptText).length < minWordCount then
    (Except.ok
      { summary := "Brief or empty conversation"
        keyTopics := []
        speakerCount := 0
        provider := "grok" }, 0)
  else
    match env.chatResult with
    | Except.error e => (Except.error e, 1)
    | Except.ok contentOpt =>
      match jsonParse (rawContentOf contentOpt) with
      | none =>
        (Except.ok
          { summary := "Summary generation failed"
            keyTopics := []
            speakerCount := 0
            provider := "grok" }, 1)
      | some parsed =>
        match parsed with
        | Json.obj kvs =>
          match speakerCountOfField ((Json.obj kvs).getField "speaker_count") with
          | Except.error e => (Except.error e, 1)
          | Except.ok sc =>
            (Except.ok
              { summary := summaryTextOfField ((Json.obj kvs).getField "summary")
                keyTopics := keyTopicsOfField ((Json.obj kvs).getField "key_topics")
                speakerCount := sc
                provider := "grok" }, 1)
        | _ =>
          (Except.error "AttributeError: object has no attribute get", 1)

/-! ## Background tasks (backend/app/tasks/transcription.py,
backend/app/tasks/summarization.py)

Each task invocation is modelled as a function from the database state and
an environment of external outcomes to the new database state plus an
outcome visible to the ARQ runtime: a normal return, a `Retry(defer=...)`
raise, or a re-raised exception. Commits are modelled by the points at
which the state record is replaced; a rollback discards everything since
the last commit, exactly as in the source. -/

inductive TaskOutcome where
  | done
  | retry (deferSeconds : Nat)
  | raised (msg : String)
deriving Repr, DecidableEq

/-- The per-utterance collection loop of `summarize_conversation`
(lines 68-72): `utt.get("text", "")` for each element, which raises an
AttributeError on the first element that is not a dict. -/
def utteranceTexts : List Json → Except String (List Json)
  | [] => Except.ok []
  | Json.obj kvs :: rest =>
    (utteranceTexts rest).map
      (fun ts => (((Json.obj kvs).getField "text").getD (Json.str "")) :: ts)
  | _ :: _ => Except.error "AttributeError: object has no attribute get"

/-- The `"\n".join(lines)` step, which raises a TypeError when some
collected text value is not a string. -/
def joinedTexts : List Json → Except String (List String)
  | [] => Except.ok []
  | Json.str s :: rest => (joinedTexts rest).map (fun ss => s :: ss)
  | _ :: _ => Except.error "TypeError: sequence item: expected str instance"

/-- The transcript-content read of `summarize_conversation` (lines 66-73):
`json.loads` the content, iterate the result collecting `utt.get("text")`,
and join with newlines. Iterating a non-list decoded value follows Python:
an empty dict or empty string iterates to nothing, a non-empty dict or
string yields non-dict items (AttributeError), and any other value is not
iterable (TypeError). -/
def parseUtterances (content : String) : Except String String :=
  match jsonParse content with
  | none => Except.error "json.decoder.JSONDecodeError: Expecting value"
  | some (Json.arr xs) =>
    match utteranceTexts xs with
    | Except.error e => Except.error e
    | Except.ok ts =>
      match joinedTexts ts with
      | Except.error e => Except.error e
      | Except.ok ss => Except.ok (String.intercalate "\n" ss)
  | some (Json.obj kvs) =>
    if kvs.isEmpty then Except.ok ""
    else Except.error "AttributeError: object has no attribute get"
  | some (Json.str s) =>
    if s = "" then Except.ok ""
    else Except.error "AttributeError: object has no attribute get"
  | some _ => Except.error "TypeError: object is not iterable"

/-- The body of the `try` block of `summarize_conversation` up to the
service call: parse the stored transcript content and summarize the
rebuilt plain text. The second component counts Grok invocations. -/
def summarizeAttempt (env : SummServiceEnv) (t : Transcript) :
    Except String SummaryResult × Nat :=
  match parseUtterances t.content with
  | Except.error e => (Except.error e, 0)
  | Except.ok transcriptText => SummarizationService.summarize env transcriptText

/-- Environment of one `summarize_conversation` invocation: the ARQ
attempt number (`job_try`) and the Grok call outcome. -/
structure SummTaskEnv where
  jobTry : Nat
  svc : SummServiceEnv

/-- Result of one `summarize_conversation` invocation. -/
structure SummStepResult where
  db : Db
  outcome : TaskOutcome
  providerCalls : Nat
deriving Repr, DecidableEq

/-- `summarize_conversation`: idempotency guard on an existing Summary,
silent return on a missing Transcript, then the parse + provider call; on
success the Summary insert and the conversation-status update to
`completed` commit together (the status update is skipped when the
Conversation row is absent); on failure the session rolls back and either
a Retry is raised, or — from the third attempt on — the conversation is
marked `failed` in a separate session and the exception is re-raised. -/
def summarize_conversation (env : SummTaskEnv) (db : Db) : SummStepResult :=
  match db.summary with
  | some _ => { db := db, outcome := TaskOutcome.done, providerCalls := 0 }
  | none =>
    match db.transcript with
    | none => { db := db, outcome := TaskOutcome.done, providerCalls := 0 }
    | some t =>
      match summarizeAttempt env.svc t with
      | (Except.ok sr, calls) =>
        let newSummary : Summary :=
          { content := sr.summary
            keyTopics := jsonDumpsStrList sr.keyTopics
            provider := sr.provider }
        { db :=
            { db with
              summary := some newSummary
              conv := db.conv.map (fun c => { c with status := "completed" }) }
          outcome := TaskOutcome.done
          providerCalls := calls }
      | (Except.error e, calls) =>
        if 3 ≤ env.jobTry then
          { db :=
              { db with
                conv := db.conv.map (fun c => { c with status := "failed" }) }
            outcome := TaskOutcome.raised e
            providerCalls := calls }
        else
          { db := db
            outcome := TaskOutcome.retry (env.jobTry * 15)
            providerCalls := calls }

/-- Environment of one `transcribe_conversation` invocation. -/
structure TransTaskEnv where
  jobTry : Nat
  svc : TransServiceEnv

/-- Result of one `transcribe_conversation` invocation;
`enqueuedSummarization` records whether the summarization job was chained. -/
structure TransStepResult where
  db : Db
  outcome : TaskOutcome
  providerCalls : Nat
  enqueuedSummarization : Bool
deriving Repr, DecidableEq

/-- `transcribe_conversation`: idempotency guard on an existing
Transcript, silent return on a missing Conversation or a status outside
`uploaded`/`transcribing`, a committed transition to `transcribing`, then
the service call; on success the Transcript insert and the `transcribed`
status commit together and the summarization job is enqueued; on failure
the session rolls back to the committed `transcribing` state and either a
Retry is raised, or — from the second attempt on — the conversation is
marked `failed` with the truncated error detail in a separate session and
the exception is re-raised. -/
def transcribe_conversation (env : TransTaskEnv) (db : Db) : TransStepResult :=
  match db.transcript with
  | some _ =>
    { db := db, outcome := TaskOutcome.done, providerCalls := 0
      enqueuedSummarization := false }
  | none =>
    match db.conv with
    | none =>
      { db := db, outcome := TaskOutcome.done, providerCalls := 0
        enqueuedSummarization := false }
    | some conv =>
      if conv.status = "uploaded" ∨ conv.status = "transcribing" then
        let conv1 : Conversation := { conv with status := "transcribing" }
        match TranscriptionService.transcribe env.svc with
        | (Except.ok tr, calls) =>
          { db :=
              { db with
                conv := some { conv1 with status := "transcribed" }
                transcript := some
                  { content := tr.fullText
                    provider := tr.provider
                    language := tr.language
                    wordCount := tr.wordCount } }
            outcome := TaskOutcome.done
            providerCalls := calls
            enqueuedSummarization := true }
        | (Except.error e, calls) =>
          if 2 ≤ env.jobTry then
            { db :=
                { db with
                  conv := some
                    { conv1 with
                      status := "failed"
                      errorDetail := some (pyTake 500 e) } }
              outcome := TaskOutcome.raised e
              providerCalls := calls
              enqueuedSummarization := false }
          else
            { db := { db with conv := some conv1 }
              outcome := TaskOutcome.retry 30
              providerCalls := calls
              enqueuedSummarization := false }
      else
        { db := db, outcome := TaskOutcome.done, providerCalls := 0
          enqueuedSummarization := false }

/-! ## ARQ job runtime

In ARQ a job is re-executed with an incremented `job_try` exactly when the
task raises `Retry`; a normal return or any other exception ends the job.
The drivers below iterate a task accordingly, counting attempts and
accumulating provider calls. -/

/-- Aggregate result of running one summarization job to completion. -/
structure SummRunResult where
  db : Db
  attempts : Nat
  providerCalls : Nat
  lastOutcome : TaskOutcome
deriving Repr, DecidableEq

/-- Run a summarization job, as `runTranscriptionJob` does for
transcription. -/
def runSummarizationJob (svc : Nat → SummServiceEnv) :
    Nat → Nat → Db → SummRunResult
  | 0, _, db =>
    { db := db, attempts := 0, providerCalls := 0
      lastOutcome := TaskOutcome.done }
  | Nat.succ fuel, jobTry, db =>
    let r := summarize_conversation { jobTry := jobTry, svc := svc jobTry } db
    match r.outcome with
    | TaskOutcome.retry _ =>
      let rest := runSummarizationJob svc fuel (jobTry + 1) r.db
      { db := rest.db
        attempts := rest.attempts + 1
        providerCalls := r.providerCalls + rest.providerCalls
        lastOutcome := rest.lastOutcome }
    | out =>
      { db := r.db, attempts := 1, providerCalls := r.providerCalls
        lastOutcome := out }

/-! ## Reachable pipeline states -/

/-- State of a conversation when the pipeline takes it over: upload
confirmed, no artifacts yet. -/
def initialDb (key : String) : Db :=
  { conv := some { status := "uploaded", errorDetail := none, audioStorageKey := key }
    transcript := none
    summary := none }

/-- Database states reachable from an upload-confirmed conversation
through the operations of the pipeline itself (invocations of the two tasks under
arbitrary external outcomes and attempt numbers). -/
inductive Reach : Db → Prop where
  | init (key : String) : Reach (initialDb key)
  | stepTranscribe (env : TransTaskEnv) {db : Db} :
      Reach db → Reach (transcribe_conversation env db).db
  | stepSummarize (env : SummTaskEnv) {db : Db} :
      Reach db → Reach (summarize_conversation env db).db

/-! ## The legal status-transition table of the specification -/

/-- The transition table of the spec (section 4.1): the linear success
path plus the two terminal failure branches. Written from the
specification, to compare the actual writes of the stages against. -/
def legalSuccessor (fromStatus toStatus : String) : Bool :=
  (fromStatus = "pending" && toStatus = "uploaded") ||
  (fromStatus = "uploaded" && toStatus = "transcribing") ||
  (fromStatus = "transcribing" && toStatus = "transcribed") ||
  (fromStatus = "transcribed" && toStatus = "summarizing") ||
  (fromStatus = "summarizing" && toStatus = "completed") ||
  (fromStatus = "transcribing" && toStatus = "failed") ||
  (fromStatus = "summarizing" && toStatus = "summarization_failed")

/-! ## Concrete fixtures used by witnesses and counterexamples -/

/-- Twelve audio bytes carrying the `ftyp` signature at offset 4-8. -/
def ftypBytes : List Nat := [0, 0, 0, 32, 102, 116, 121, 112, 0, 0, 0, 0]

/-- A transcription environment whose download, probe and conversion
succeed and whose Whisper call returns the given text. -/
def whisperOkEnv (text : String) : TransServiceEnv :=
  { downloadResult := Except.ok ftypBytes
    durationResult := fun _ => Except.ok 60
    convertResult := fun b => Except.ok b
    whisperResult := fun _ => Except.ok text }

/-- A transcription environment whose Whisper call always throws. -/
def whisperErrEnv (msg : String) : TransServiceEnv :=
  { downloadResult := Except.ok ftypBytes
    durationResult := fun _ => Except.ok 60
    convertResult := fun b => Except.ok b
    whisperResult := fun _ => Except.error msg }

/-- A ten-word plain-prose transcript text, as Whisper produces. -/
def proseText : String := "Hello there my good friend how are you doing today"

/-- An eleven-word utterance text. -/
def elevenWordText : String := "one two three four five six seven eight nine ten eleven"

/-- Transcript content in the JSON per-utterance form the summarization
task expects. -/
def jsonUtteranceContent : String :=
  "[\x7b\"text\": \"" ++ elevenWordText ++ "\"\x7d]"

/-- A transcript row holding JSON utterance content. -/
def jsonTranscript : Transcript :=
  { content := jsonUtteranceContent, provider := "whisper"
    language := "en", wordCount := 11 }

/-- A transcript row holding a two-character plain text. -/
def shortPlainTranscript : Transcript :=
  { content := "hi", provider := "whisper", language := "en", wordCount := 1 }

/-- A transcript row whose content is the empty JSON array. -/
def emptyArrTranscript : Transcript :=
  { content := "[]", provider := "whisper", language := "en", wordCount := 0 }

/-- A conversation row in status `transcribed`. -/
def transcribedConv : Conversation :=
  { status := "transcribed", errorDetail := none, audioStorageKey := "k" }

/-- Database state with a transcribed conversation, the given transcript,
and no summary. -/
def dbWithTranscript (t : Transcript) : Db :=
  { conv := some transcribedConv, transcript := some t, summary := none }

/-! ## Claim C6 — idempotency guards -/

/-- C6: both stages are idempotent via the artifact guard: a conversation
that already has the output artifact of the stage makes the stage return at
once with zero provider calls, zero writes, and no chained job. -/
theorem C6_idempotence :
    (∀ (env : TransTaskEnv) (db : Db) (t : Transcript), db.transcript = some t →
      transcribe_conversation env db =
        { db := db, outcome := TaskOutcome.done, providerCalls := 0
          enqueuedSummarization := false }) ∧
    (∀ (env : SummTaskEnv) (db : Db) (s : Summary), db.summary = some s →
      summarize_conversation env db =
        { db := db, outcome := TaskOutcome.done, providerCalls := 0 }) := by
  constructor
  · intro env db t ht
    simp [transcribe_conversation, ht]
  · intro env db s hs
    simp [summarize_conversation, hs]

/-- Witness for C6 at a concrete database state. -/
theorem C6_idempotence_witness :
    transcribe_conversation { jobTry := 1, svc := whisperErrEnv "x" } (dbWithTranscript jsonTranscript) =
      { db := dbWithTranscript jsonTranscript, outcome := TaskOutcome.done
        providerCalls := 0, enqueuedSummarization := false } :=
  C6_idempotence.1 { jobTry := 1, svc := whisperErrEnv "x" } (dbWithTranscript jsonTranscript)
    jsonTranscript rfl

/-! ## Claim C5 — provider chains -/

/-- C5 counterexample: each capability consists of a single provider and
no fallback is attempted. With the sole Whisper provider throwing, the
transcription capability propagates the exception after exactly one
provider call (no secondary is consulted that could succeed); the
summarization capability behaves the same with Grok throwing on an
eleven-word transcript. -/
theorem C5_counterexample :
    TranscriptionService.transcribe (whisperErrEnv "whisper timeout") =
      (Except.error "whisper timeout", 1) ∧
    SummarizationService.summarize { chatResult := Except.error "grok down" } elevenWordText =
      (Except.error "grok down", 1) :=
  ⟨rfl, by decide⟩

/-- C5 amended: each capability is one fixed provider with no fallback
chain. A successful transcription always records provider `whisper` after
exactly one provider call; when the sole Whisper provider always throws,
the capability never succeeds; a successful summarization that called the
provider records `grok`; and when Grok throws on a transcript long enough
to be summarized, its exception propagates directly after one call. -/
theorem C5_amended :
    (∀ (env : TransServiceEnv) (tr : TranscriptionResult) (calls : Nat),
      TranscriptionService.transcribe env = (Except.ok tr, calls) →
      tr.provider = "whisper" ∧ calls = 1) ∧
    (∀ (env : TransServiceEnv) (m : String),
      (∀ b, env.whisperResult b = Except.error m) →
      ∀ (tr : TranscriptionResult) (calls : Nat),
        TranscriptionService.transcribe env ≠ (Except.ok tr, calls)) ∧
    (∀ (env : SummServiceEnv) (text : String) (sr : SummaryResult) (calls : Nat),
      SummarizationService.summarize env text = (Except.ok sr, calls) →
      sr.provider = "grok") ∧
    (∀ (env : SummServiceEnv) (text : String) (m : String),
      env.chatResult = Except.error m →
      ¬ (text = "" ∨ (pySplitWs text).length < minWordCount) →
      SummarizationService.summarize env text = (Except.error m, 1)) := by
  refine ⟨?_, ?_, ?_, ?_⟩
  · intro env tr calls h
    unfold TranscriptionService.transcribe at h
    split at h
    · exact absurd h (by simp)
    · split at h
      · exact absurd h (by simp)
      · split at h
        · exact absurd h (by simp)
        · split at h
          · exact absurd h (by simp)
          · split at h
            · exact absurd h (by simp)
            · split at h
              · exact absurd h (by simp)
              · split at h
                · exact absurd h (by simp)
                · split at h
                  · exact absurd h (by simp)
                  · rw [Prod.mk.injEq] at h
                    obtain ⟨h1, h2⟩ := h
                    injection h1 with h1
                    subst h1
                    exact ⟨rfl, h2.symm⟩
  · intro env m hm tr calls h
    unfold TranscriptionService.transcribe at h
    split at h
    · exact absurd h (by simp)
    · split at h
      · exact absurd h (by simp)
      · split at h
        · exact absurd h (by simp)
        · split at h
          · exact absurd h (by simp)
          · split at h
            · exact absurd h (by simp)
            · split at h
              · exact absurd h (by simp)
              · split at h
                · exact absurd h (by simp)
                · split at h
                  · exact absurd h (by simp)
                  · rename_i text heq
                    rw [hm] at heq
                    exact absurd heq (by simp)
  · intro env text sr calls h
    unfold SummarizationService.summarize at h
    split at h
    · rw [Prod.mk.injEq] at h
      obtain ⟨h1, _⟩ := h
      injection h1 with h1
      rw [← h1]
    · split at h
      · exact absurd h (by simp)
      · split at h
        · rw [Prod.mk.injEq] at h
          obtain ⟨h1, _⟩ := h
          injection h1 with h1
          rw [← h1]
        · split at h
          · split at h
            · exact absurd h (by simp)
            · rw [Prod.mk.injEq] at h
              obtain ⟨h1, _⟩ := h
              injection h1 with h1
              rw [← h1]
          · exact absurd h (by simp)
  · intro env text m hm hlong
    unfold SummarizationService.summarize
    rw [if_neg hlong, hm]

/-- Witness for C5 amended, at the sample whisper environment and an
eleven-word transcript. -/
theorem C5_amended_witness :
    (({ utterances := [], fullText := proseText, provider := "whisper"
        language := "en", wordCount := 10 } : TranscriptionResult).provider = "whisper" ∧
      (1 : Nat) = 1) ∧
    SummarizationService.summarize { chatResult := Except.error "grok down" } elevenWordText =
      (Except.error "grok down", 1) :=
  ⟨C5_amended.1 (whisperOkEnv proseText) _ 1 rfl,
   C5_amended.2.2.2 { chatResult := Except.error "grok down" } elevenWordText "grok down" rfl
     (by decide)⟩

/-! ## Claim C1 — summarization terminal-failure write -/

/-- C1 counterexample: a conversation whose summarization budget is
exhausted by a retryable provider failure (Grok throws on attempt 3) ends
with status `failed` — not `summarization_failed` — and with no error
detail stored, though the Transcript is untouched and the exception is
re-raised. -/
theorem C1_counterexample :
    summarize_conversation { jobTry := 3, svc := { chatResult := Except.error "api down" } }
        (dbWithTranscript jsonTranscript) =
      { db := { conv := some { status := "failed", errorDetail := none, audioStorageKey := "k" }
                transcript := some jsonTranscript
                summary := none }
        outcome := TaskOutcome.raised "api down"
        providerCalls := 1 } ∧
    ("failed" : String) ≠ "summarization_failed" :=
  ⟨by decide, by decide⟩

/-- C1 amended: on an exhausted retry budget (attempt 3 or later) the
Summarization Stage writes — in a separate session from the rolled-back
attempt — the status `failed` (not `summarization_failed`) and stores no
error detail, leaves the existing Transcript row untouched, and re-raises
the exception. -/
theorem C1_amended (env : SummTaskEnv) (db : Db) (t : Transcript) (e : String) (calls : Nat)
    (hs : db.summary = none) (ht : db.transcript = some t)
    (htry : 3 ≤ env.jobTry)
    (hfail : summarizeAttempt env.svc t = (Except.error e, calls)) :
    summarize_conversation env db =
      { db := { db with conv := db.conv.map (fun c => { c with status := "failed" }) }
        outcome := TaskOutcome.raised e
        providerCalls := calls } ∧
    ({ db with conv := db.conv.map (fun c => { c with status := "failed" }) } : Db).transcript
      = some t ∧
    ∀ c, db.conv = some c →
      ({ c with status := "failed" } : Conversation).errorDetail = c.errorDetail := by
  refine ⟨?_, ?_, ?_⟩
  · simp [summarize_conversation, hs, ht, hfail, htry]
  · simp [ht]
  · intro c hc
    rfl

/-- Witness for C1 amended at a concrete exhausted attempt. -/
theorem C1_amended_witness :
    summarize_conversation { jobTry := 3, svc := { chatResult := Except.error "api down" } }
        (dbWithTranscript jsonTranscript) =
      { db := { (dbWithTranscript jsonTranscript) with
                conv := (dbWithTranscript jsonTranscript).conv.map
                  (fun c => { c with status := "failed" }) }
        outcome := TaskOutcome.raised "api down"
        providerCalls := 1 } ∧
    ({ (dbWithTranscript jsonTranscript) with
       conv := (dbWithTranscript jsonTranscript).conv.map
         (fun c => { c with status := "failed" }) } : Db).transcript = some jsonTranscript ∧
    (∀ c, (dbWithTranscript jsonTranscript).conv = some c →
      ({ c with status := "failed" } : Conversation).errorDetail = c.errorDetail) :=
  C1_amended { jobTry := 3, svc := { chatResult := Except.error "api down" } }
    (dbWithTranscript jsonTranscript) jsonTranscript "api down" 1 rfl rfl (by decide) (by decide)

/-! ## Claim C9 — short-transcript short-circuit -/

/-- C9 counterexample: a transcript whose word count (1) is far below the
configured minimum (10) but whose content is stored as plain text does not
produce a placeholder summary — the JSON parse of its content fails, the
attempt is retried, and the conversation does not advance. -/
theorem C9_counterexample :
    summarize_conversation { jobTry := 1, svc := { chatResult := Except.error "unreached" } }
        (dbWithTranscript shortPlainTranscript) =
      { db := dbWithTranscript shortPlainTranscript
        outcome := TaskOutcome.retry 15
        providerCalls := 0 } ∧
    shortPlainTranscript.wordCount < minWordCount :=
  ⟨by decide, by decide⟩

/-- C9 amended: for every transcript whose content parses to an utterance
text that is empty or below the minimum word count, the stage writes the
placeholder summary (`Brief or empty conversation`, empty topic list) with
zero provider invocations and advances the conversation to `completed`. -/
theorem C9_amended (env : SummTaskEnv) (db : Db) (t : Transcript) (txt : String)
    (hs : db.summary = none) (ht : db.transcript = some t)
    (hparse : parseUtterances t.content = Except.ok txt)
    (hshort : txt = "" ∨ (pySplitWs txt).length < minWordCount) :
    summarize_conversation env db =
      { db := { db with
                summary := some
                  { content := "Brief or empty conversation"
                    keyTopics := "[]"
                    provider := "grok" }
                conv := db.conv.map (fun c => { c with status := "completed" }) }
        outcome := TaskOutcome.done
        providerCalls := 0 } := by
  have hatt : summarizeAttempt env.svc t =
      (Except.ok { summary := "Brief or empty conversation", keyTopics := []
                   speakerCount := 0, provider := "grok" }, 0) := by
    unfold summarizeAttempt SummarizationService.summarize
    rw [hparse]
    exact if_pos hshort
  simp [summarize_conversation, hs, ht, hatt]
  rfl

/-- Witness for C9 amended: an empty-array transcript content parses to
the empty text and short-circuits to the placeholder. -/
theorem C9_amended_witness :
    summarize_conversation { jobTry := 1, svc := { chatResult := Except.error "unreached" } }
        (dbWithTranscript emptyArrTranscript) =
      { db := { (dbWithTranscript emptyArrTranscript) with
                summary := some
                  { content := "Brief or empty conversation"
                    keyTopics := "[]"
                    provider := "grok" }
                conv := (dbWithTranscript emptyArrTranscript).conv.map
                  (fun c => { c with status := "completed" }) }
        outcome := TaskOutcome.done
        providerCalls := 0 } :=
  C9_amended { jobTry := 1, svc := { chatResult := Except.error "unreached" } }
    (dbWithTranscript emptyArrTranscript) emptyArrTranscript "" rfl rfl (by decide)
    (Or.inl rfl)

/-! ## Claim C10 — transcript without a conversation row -/

/-- C2 counterexample: the Transcription Stage persists the plain prose
of the provider as `Transcript.content`, and the Summarization Stage read of
exactly that content fails its JSON parse, so the attempt is retried
instead of being consumed. -/
theorem C2_counterexample :
    (transcribe_conversation { jobTry := 1, svc := whisperOkEnv proseText }
        (initialDb "k")).db.transcript =
      some { content := proseText, provider := "whisper", language := "en", wordCount := 10 } ∧
    parseUtterances proseText =
      Except.error "json.decoder.JSONDecodeError: Expecting value" ∧
    (summarize_conversation { jobTry := 1, svc := { chatResult := Except.ok (some "unused") } }
        (transcribe_conversation { jobTry := 1, svc := whisperOkEnv proseText }
          (initialDb "k")).db).outcome = TaskOutcome.retry 15 :=
  ⟨by decide, by decide, by decide⟩

/-- C2 amended: the two stages do not share a canonical representation of
`Transcript.content`. The Transcription Stage persists the provider
plain text verbatim, while the Summarization Stage read succeeds only on
content that is valid JSON: whenever the stored content fails `json.loads`
— as ordinary prose does — the second stage fails to parse it. -/
theorem C2_amended :
    (∀ (env : TransTaskEnv) (db : Db) (c : Conversation) (tr : TranscriptionResult) (calls : Nat),
      db.transcript = none → db.conv = some c → c.status = "uploaded" →
      TranscriptionService.transcribe env.svc = (Except.ok tr, calls) →
      (transcribe_conversation env db).db.transcript =
        some { content := tr.fullText, provider := tr.provider
               language := tr.language, wordCount := tr.wordCount }) ∧
    (∀ s, jsonParse s = none →
      parseUtterances s = Except.error "json.decoder.JSONDecodeError: Expecting value") := by
  constructor
  · intro env db c tr calls ht hc hstat hsvc
    simp [transcribe_conversation, ht, hc, hstat, hsvc]
  · intro s hp
    unfold parseUtterances
    rw [hp]

/-- Witness for C2 amended at the concrete prose transcription run. -/
theorem C2_amended_witness :
    (transcribe_conversation { jobTry := 1, svc := whisperOkEnv proseText }
        (initialDb "k")).db.transcript =
      some { content := proseText, provider := "whisper", language := "en"
             wordCount := 10 } ∧
    parseUtterances "plainly not JSON" =
      Except.error "json.decoder.JSONDecodeError: Expecting value" := by
  constructor
  · exact C2_amended.1 { jobTry := 1, svc := whisperOkEnv proseText } (initialDb "k")
      { status := "uploaded", errorDetail := none, audioStorageKey := "k" }
      { utterances := [], fullText := proseText, provider := "whisper"
        language := "en", wordCount := 10 } 1 rfl rfl rfl rfl
  · exact C2_amended.2 "plainly not JSON" rfl

/-! ## Claim C7 — transcription retry bound and terminal failure -/

/-- C8 counterexample: a provider response that is valid JSON but not the
expected object structure (here the body `[]`) does not produce the
placeholder: reading a field of it raises, the attempt is retried, and
the conversation does not advance — although the body failed to parse
into the expected structure after a successful provider call. -/
theorem C8_counterexample :
    summarize_conversation { jobTry := 1, svc := { chatResult := Except.ok (some "[]") } }
        (dbWithTranscript jsonTranscript) =
      { db := dbWithTranscript jsonTranscript
        outcome := TaskOutcome.retry 15
        providerCalls := 1 } ∧
    (jsonParse "[]").isSome = true :=
  ⟨by decide, rfl⟩

/-- C8 amended: the two-tier classification distinguishes JSON-decodable
from JSON-undecodable bodies, not expected from unexpected structure. A
body that is not valid JSON is resolved without retry: the placeholder
Summary is written after exactly one provider call and the conversation
advances to `completed`. A thrown provider call is retried: attempts 1
and 2 write nothing, and only attempt 3 — the budget — writes the
terminal status (`failed`) and re-raises. (A body that is valid JSON but
not an object raises and is therefore retried like an infrastructure
failure, as the counterexample shows.) -/
theorem C8_amended :
    (∀ (env : SummTaskEnv) (db : Db) (t : Transcript) (txt raw : String),
      db.summary = none → db.transcript = some t →
      parseUtterances t.content = Except.ok txt →
      ¬ (txt = "" ∨ (pySplitWs txt).length < minWordCount) →
      env.svc.chatResult = Except.ok (some raw) → raw ≠ "" →
      jsonParse raw = none →
      summarize_conversation env db =
        { db := { db with
                  summary := some
                    { content := "Summary generation failed"
                      keyTopics := "[]"
                      provider := "grok" }
                  conv := db.conv.map (fun c => { c with status := "completed" }) }
          outcome := TaskOutcome.done
          providerCalls := 1 }) ∧
    (∀ (svcE : SummServiceEnv) (db : Db) (t : Transcript) (txt m : String) (fuel : Nat),
      svcE.chatResult = Except.error m →
      db.summary = none → db.transcript = some t →
      parseUtterances t.content = Except.ok txt →
      ¬ (txt = "" ∨ (pySplitWs txt).length < minWordCount) →
      3 ≤ fuel →
      (summarize_conversation { jobTry := 1, svc := svcE } db).db = db ∧
      (summarize_conversation { jobTry := 2, svc := svcE } db).db = db ∧
      (runSummarizationJob (fun _ => svcE) fuel 1 db).attempts = 3 ∧
      (runSummarizationJob (fun _ => svcE) fuel 1 db).db =
        { db with conv := db.conv.map (fun c => { c with status := "failed" }) } ∧
      (runSummarizationJob (fun _ => svcE) fuel 1 db).lastOutcome = TaskOutcome.raised m) := by
  constructor
  · intro env db t txt raw hs ht hparse hlong hchat hraw hjson
    have hatt : summarizeAttempt env.svc t =
        (Except.ok { summary := "Summary generation failed", keyTopics := []
                     speakerCount := 0, provider := "grok" }, 1) := by
      unfold summarizeAttempt
      rw [hparse]
      show SummarizationService.summarize env.svc txt = _
      unfold SummarizationService.summarize
      rw [if_neg hlong, hchat]
      have hrc : rawContentOf (some raw) = raw := by
        unfold rawContentOf
        exact if_neg hraw
      simp only [hrc, hjson]
    simp [summarize_conversation, hs, ht, hatt]
    rfl
  · intro svcE db t txt m fuel hchat hs ht hparse hlong hfuel
    have hatt : summarizeAttempt svcE t = (Except.error m, 1) := by
      unfold summarizeAttempt
      rw [hparse]
      show SummarizationService.summarize svcE txt = _
      unfold SummarizationService.summarize
      rw [if_neg hlong, hchat]
    have step : ∀ j, j < 3 → summarize_conversation { jobTry := j, svc := svcE } db =
        { db := db, outcome := TaskOutcome.retry (j * 15), providerCalls := 1 } := by
      intro j hj
      simp [summarize_conversation, hs, ht, hatt, Nat.not_le.mpr hj]
    have step3 : summarize_conversation { jobTry := 3, svc := svcE } db =
        { db := { db with conv := db.conv.map (fun c => { c with status := "failed" }) }
          outcome := TaskOutcome.raised m
          providerCalls := 1 } := by
      simp [summarize_conversation, hs, ht, hatt]
    obtain ⟨k, rfl⟩ : ∃ k, fuel = Nat.succ (Nat.succ (Nat.succ k)) := ⟨fuel - 3, by omega⟩
    have hrun : runSummarizationJob (fun _ => svcE) (Nat.succ (Nat.succ (Nat.succ k))) 1 db =
        { db := { db with conv := db.conv.map (fun c => { c with status := "failed" }) }
          attempts := 3, providerCalls := 3
          lastOutcome := TaskOutcome.raised m } := by
      simp only [runSummarizationJob, step 1 (by omega), step 2 (by omega), step3]
    exact ⟨by rw [step 1 (by omega)], by rw [step 2 (by omega)],
      by rw [hrun], by rw [hrun], by rw [hrun]⟩

/-- Witness for C8 amended: a non-JSON body resolves to the placeholder
in one call, and an always-throwing provider is retried to the budget. -/
theorem C8_amended_witness :
    summarize_conversation { jobTry := 1, svc := { chatResult := Except.ok (some "oops not json") } }
        (dbWithTranscript jsonTranscript) =
      { db := { (dbWithTranscript jsonTranscript) with
                summary := some
                  { content := "Summary generation failed"
                    keyTopics := "[]"
                    provider := "grok" }
                conv := (dbWithTranscript jsonTranscript).conv.map
                  (fun c => { c with status := "completed" }) }
        outcome := TaskOutcome.done
        providerCalls := 1 } ∧
    (runSummarizationJob (fun _ => { chatResult := Except.error "grok down" }) 3 1
        (dbWithTranscript jsonTranscript)).attempts = 3 :=
  ⟨(C8_amended.1 { jobTry := 1, svc := { chatResult := Except.ok (some "oops not json") } }
      (dbWithTranscript jsonTranscript) jsonTranscript elevenWordText "oops not json"
      rfl rfl (by decide) (by decide) rfl (by decide) rfl),
   ((C8_amended.2 { chatResult := Except.error "grok down" } (dbWithTranscript jsonTranscript)
      jsonTranscript elevenWordText "grok down" 3 rfl rfl rfl (by decide) (by decide)
      (by omega)).2.2.1)⟩

/-! ## Claim C3 — status transition discipline -/

/-- A well-formed Grok response body. -/
def grokGoodBody : String :=
  "\x7b\"summary\": \"a chat\", \"key_topics\": [\"x\"], \"speaker_count\": 2\x7d"

/-- Helper: the transcription stage is a no-op outside its legal
predecessor statuses. -/
theorem transNoopOnIllegalStatus (env : TransTaskEnv) (db : Db) (c : Conversation)
    (ht : db.transcript = none) (hc : db.conv = some c)
    (h1 : c.status ≠ "uploaded") (h2 : c.status ≠ "transcribing") :
    transcribe_conversation env db =
      { db := db, outcome := TaskOutcome.done, providerCalls := 0
        enqueuedSummarization := false } := by
  simp [transcribe_conversation, ht, hc, h1, h2]

/-- Helper: any conversation row left by the transcription stage has the
original status, or one of `transcribing`, `transcribed`, `failed`
reached from a legal predecessor status. -/
theorem transStatusWrites (env : TransTaskEnv) (db : Db) (c c2 : Conversation)
    (hc : db.conv = some c)
    (h2 : (transcribe_conversation env db).db.conv = some c2) :
    c2.status = c.status ∨
      ((c.status = "uploaded" ∨ c.status = "transcribing") ∧
        (c2.status = "transcribing" ∨ c2.status = "transcribed" ∨ c2.status = "failed")) := by
  rcases htr : db.transcript with _ | t
  · by_cases hst : c.status = "uploaded" ∨ c.status = "transcribing"
    · rcases hsvc : TranscriptionService.transcribe env.svc with ⟨res, calls⟩
      rcases res with e | tr
      · by_cases hj : 2 ≤ env.jobTry
        · simp [transcribe_conversation, htr, hc, hst, hsvc, hj] at h2
          subst h2
          exact Or.inr ⟨hst, Or.inr (Or.inr rfl)⟩
        · simp [transcribe_conversation, htr, hc, hst, hsvc, hj] at h2
          subst h2
          exact Or.inr ⟨hst, Or.inl rfl⟩
      · simp [transcribe_conversation, htr, hc, hst, hsvc] at h2
        subst h2
        exact Or.inr ⟨hst, Or.inr (Or.inl rfl)⟩
    · simp [transcribe_conversation, htr, hc, hst] at h2
      subst h2
      exact Or.inl rfl
  · simp [transcribe_conversation, htr, hc] at h2
    subst h2
    exact Or.inl rfl

/-- Helper: any conversation row left by the summarization stage has the
original status, or `completed`, or `failed` — written with no check of
the predecessor status. -/
theorem summStatusWrites (env : SummTaskEnv) (db : Db) (c c2 : Conversation)
    (hc : db.conv = some c)
    (h2 : (summarize_conversation env db).db.conv = some c2) :
    c2.status = c.status ∨ c2.status = "completed" ∨ c2.status = "failed" := by
  rcases hsm : db.summary with _ | s
  · rcases htr : db.transcript with _ | t
    · simp [summarize_conversation, hsm, htr, hc] at h2
      subst h2
      exact Or.inl rfl
    · rcases hatt : summarizeAttempt env.svc t with ⟨res, calls⟩
      rcases res with e | sr
      · by_cases hj : 3 ≤ env.jobTry
        · simp [summarize_conversation, hsm, htr, hc, hatt, hj] at h2
          subst h2
          exact Or.inr (Or.inr rfl)
        · simp [summarize_conversation, hsm, htr, hc, hatt, hj] at h2
          subst h2
          exact Or.inl rfl
      · simp [summarize_conversation, hsm, htr, hc, hatt] at h2
        subst h2
        exact Or.inr (Or.inl rfl)
  · simp [summarize_conversation, hsm, hc] at h2
    subst h2
    exact Or.inl rfl

/-- C3 counterexample: the summarization stage performs no
status-precondition check. Invoked against a conversation still in
`pending` (not a legal predecessor of anything the stage writes), it is
not a no-op: it jumps the status straight to `completed`, a transition
absent from the legal table — and `transcribed → completed` (the jump its
normal path performs, skipping `summarizing`) is likewise not a legal
successor step. -/
theorem C3_counterexample :
    summarize_conversation { jobTry := 1, svc := { chatResult := Except.ok (some grokGoodBody) } }
        { conv := some { status := "pending", errorDetail := none, audioStorageKey := "k" }
          transcript := some jsonTranscript
          summary := none } =
      { db :=
          { conv := some { status := "completed", errorDetail := none, audioStorageKey := "k" }
            transcript := some jsonTranscript
            summary := some { content := "a chat", keyTopics := "[\"x\"]", provider := "grok" } }
        outcome := TaskOutcome.done
        providerCalls := 1 } ∧
    legalSuccessor "pending" "completed" = false ∧
    legalSuccessor "transcribed" "completed" = false :=
  ⟨by decide, by decide, by decide⟩

/-- C3 amended: the transcription stage respects the table — it no-ops on
any status outside `uploaded`/`transcribing` and writes only
`transcribing`, `transcribed` or `failed` from those predecessors. The
summarization stage, however, has no status guard: whatever the current
status, it leaves it unchanged or writes `completed` (on success) or
`failed` (on an exhausted budget), skipping the `summarizing` state; in
particular neither stage ever writes `summarizing` or
`summarization_failed`. -/
theorem C3_amended :
    (∀ (env : TransTaskEnv) (db : Db) (c : Conversation),
      db.transcript = none → db.conv = some c →
      c.status ≠ "uploaded" → c.status ≠ "transcribing" →
      transcribe_conversation env db =
        { db := db, outcome := TaskOutcome.done, providerCalls := 0
          enqueuedSummarization := false }) ∧
    (∀ (env : TransTaskEnv) (db : Db) (c c2 : Conversation),
      db.conv = some c →
      (transcribe_conversation env db).db.conv = some c2 →
      c2.status = c.status ∨
        ((c.status = "uploaded" ∨ c.status = "transcribing") ∧
          (c2.status = "transcribing" ∨ c2.status = "transcribed" ∨ c2.status = "failed"))) ∧
    (∀ (env : SummTaskEnv) (db : Db) (c c2 : Conversation),
      db.conv = some c →
      (summarize_conversation env db).db.conv = some c2 →
      c2.status = c.status ∨ c2.status = "completed" ∨ c2.status = "failed") ∧
    (∀ (env : SummTaskEnv) (db : Db) (c c2 : Conversation),
      db.conv = some c →
      c.status ≠ "summarizing" → c.status ≠ "summarization_failed" →
      (summarize_conversation env db).db.conv = some c2 →
      c2.status ≠ "summarizing" ∧ c2.status ≠ "summarization_failed") := by
  refine ⟨transNoopOnIllegalStatus, transStatusWrites, summStatusWrites, ?_⟩
  intro env db c c2 hc hns hnsf h2
  rcases summStatusWrites env db c c2 hc h2 with h | h | h
  · rw [h]
    exact ⟨hns, hnsf⟩
  · rw [h]
    exact ⟨by decide, by decide⟩
  · rw [h]
    exact ⟨by decide, by decide⟩

/-- Witness for C3 amended: a completed conversation is left untouched by
the transcription stage. -/
theorem C3_amended_witness :
    transcribe_conversation { jobTry := 1, svc := whisperErrEnv "x" }
        { conv := some { status := "completed", errorDetail := none, audioStorageKey := "k" }
          transcript := none
          summary := none } =
      { db := { conv := some { status := "completed", errorDetail := none, audioStorageKey := "k" }
                transcript := none
                summary := none }
        outcome := TaskOutcome.done, providerCalls := 0
        enqueuedSummarization := false } :=
  C3_amended.1 { jobTry := 1, svc := whisperErrEnv "x" }
    { conv := some { status := "completed", errorDetail := none, audioStorageKey := "k" }
      transcript := none
      summary := none }
    { status := "completed", errorDetail := none, audioStorageKey := "k" }
    rfl rfl (by decide) (by decide)

/-! ## Claim C4 — artifact invariants over reachable states -/

/-- The artifact invariant that actually holds of the pipeline: a
`transcribed` or `completed` conversation has its Transcript, a
`completed` conversation has its Summary, and the states `summarizing`
and `summarization_failed` are never inhabited. (Uniqueness of the
artifacts is structural: the database state holds at most one of each.) -/
def pipelineInv (db : Db) : Prop :=
  ∀ c, db.conv = some c →
    ((c.status = "transcribed" ∨ c.status = "completed") → db.transcript.isSome) ∧
    (c.status = "completed" → db.summary.isSome) ∧
    c.status ≠ "summarizing" ∧ c.status ≠ "summarization_failed"

/-- Helper: one transcription-stage invocation preserves the invariant. -/
theorem transStepPipelineInv (env : TransTaskEnv) (db : Db)
    (h : pipelineInv db) : pipelineInv (transcribe_conversation env db).db := by
  intro c2 hc2
  rcases htr : db.transcript with _ | t
  · rcases hcv : db.conv with _ | c
    · simp [transcribe_conversation, htr, hcv] at hc2
    · by_cases hst : c.status = "uploaded" ∨ c.status = "transcribing"
      · rcases hsvc : TranscriptionService.transcribe env.svc with ⟨res, calls⟩
        rcases res with e | tr
        · by_cases hj : 2 ≤ env.jobTry
          · simp [transcribe_conversation, htr, hcv, hst, hsvc, hj] at hc2
            subst hc2
            exact ⟨fun hf => absurd hf (by simp), fun hf => absurd hf (by simp),
              by simp, by simp⟩
          · simp [transcribe_conversation, htr, hcv, hst, hsvc, hj] at hc2
            subst hc2
            exact ⟨fun hf => absurd hf (by simp), fun hf => absurd hf (by simp),
              by simp, by simp⟩
        · simp [transcribe_conversation, htr, hcv, hst, hsvc] at hc2
          subst hc2
          refine ⟨fun _ => ?_, fun hf => absurd hf (by simp), by simp, by simp⟩
          simp [transcribe_conversation, htr, hcv, hst, hsvc]
      · simp [transcribe_conversation, htr, hcv, hst] at hc2
        have := h c2 (by rw [hcv, hc2])
        rw [show (transcribe_conversation env db).db = db from by
          simp [transcribe_conversation, htr, hcv, hst]]
        exact this
  · rw [show (transcribe_conversation env db).db = db from by
      simp [transcribe_conversation, htr]]
    exact h c2 (by
      rw [show (transcribe_conversation env db).db = db from by
        simp [transcribe_conversation, htr]] at hc2
      exact hc2)

/-- Helper: one summarization-stage invocation preserves the invariant. -/
theorem summStepPipelineInv (env : SummTaskEnv) (db : Db)
    (h : pipelineInv db) : pipelineInv (summarize_conversation env db).db := by
  intro c2 hc2
  rcases hsm : db.summary with _ | s
  · rcases htr : db.transcript with _ | t
    · rw [show (summarize_conversation env db).db = db from by
        simp [summarize_conversation, hsm, htr]] at hc2 ⊢
      exact h c2 hc2
    · rcases hatt : summarizeAttempt env.svc t with ⟨res, calls⟩
      rcases res with e | sr
      · by_cases hj : 3 ≤ env.jobTry
        · rcases hcv : db.conv with _ | c
          · simp [summarize_conversation, hsm, htr, hatt, hj, hcv] at hc2
          · simp [summarize_conversation, hsm, htr, hatt, hj, hcv] at hc2
            subst hc2
            exact ⟨fun hf => absurd hf (by simp), fun hf => absurd hf (by simp),
              by simp, by simp⟩
        · rw [show (summarize_conversation env db).db = db from by
            simp [summarize_conversation, hsm, htr, hatt, hj]] at hc2 ⊢
          exact h c2 hc2
      · rcases hcv : db.conv with _ | c
        · simp [summarize_conversation, hsm, htr, hatt, hcv] at hc2
        · simp [summarize_conversation, hsm, htr, hatt, hcv] at hc2
          subst hc2
          refine ⟨fun _ => ?_, fun _ => ?_, by simp, by simp⟩
          · simp [summarize_conversation, hsm, htr, hatt, hcv]
          · simp [summarize_conversation, hsm, htr, hatt, hcv]
  · rw [show (summarize_conversation env db).db = db from by
      simp [summarize_conversation, hsm]] at hc2 ⊢
    exact h c2 hc2

/-- C4 counterexample: a state reachable through the pipeline own
operations in which the conversation is `failed` while its Transcript row
exists — transcription succeeds (persisting plain prose), then the
summarization budget is exhausted on its attempt 3 (the stored content
does not decode), marking the conversation `failed` with the Transcript
intact. The claim asserts a `failed` conversation has no Transcript. -/
theorem C4_counterexample :
    Reach (summarize_conversation { jobTry := 3, svc := { chatResult := Except.ok (some "x") } }
      (transcribe_conversation { jobTry := 1, svc := whisperOkEnv proseText }
        (initialDb "k")).db).db ∧
    (summarize_conversation { jobTry := 3, svc := { chatResult := Except.ok (some "x") } }
      (transcribe_conversation { jobTry := 1, svc := whisperOkEnv proseText }
        (initialDb "k")).db).db.conv =
      some { status := "failed", errorDetail := none, audioStorageKey := "k" } ∧
    (summarize_conversation { jobTry := 3, svc := { chatResult := Except.ok (some "x") } }
      (transcribe_conversation { jobTry := 1, svc := whisperOkEnv proseText }
        (initialDb "k")).db).db.transcript.isSome = true :=
  ⟨Reach.stepSummarize { jobTry := 3, svc := { chatResult := Except.ok (some "x") } }
      (Reach.stepTranscribe { jobTry := 1, svc := whisperOkEnv proseText }
        (Reach.init "k")),
   by decide, by decide⟩

/-- C4 amended: in every state reachable through the pipeline own
operations, a conversation in `transcribed` or `completed` has its (by
schema unique) Transcript, a conversation in `completed` has its Summary,
and the statuses `summarizing` and `summarization_failed` are never
reached; but a conversation in `failed` may retain its Transcript, namely
when the summarization budget was exhausted after transcription
succeeded. -/
theorem C4_amended (db : Db) (h : Reach db) : pipelineInv db := by
  induction h with
  | init key =>
    intro c hc
    injection hc with hc
    subst hc
    exact ⟨fun hf => absurd hf (by simp), fun hf => absurd hf (by simp),
      by simp, by simp⟩
  | stepTranscribe env hr ih => exact transStepPipelineInv env _ ih
  | stepSummarize env hr ih => exact summStepPipelineInv env _ ih

/-- Witness for C4 amended at the initial reachable state. -/
theorem C4_amended_witness : pipelineInv (initialDb "k") :=
  C4_amended (initialDb "k") (Reach.init "k")
